import Mathlib

/-!
Verification of the Cherrywood Apartments nuisance-reporting core
(`src/app.py`) against its natural-language specification.

The store file `reports.csv` is modelled as `Option CsvFile`: `none` means
the file does not exist on disk, `some f` is the parsed file.  Time is an
explicit `now : String` parameter (the code formats `datetime.now()` to a
string before any use).  The SMTP session in `send_email_alert` is an
external effect, modelled by a `Transport` parameter giving its outcome;
the Python `try`/`except` is reflected in how the result is computed from
that outcome.  Possible I/O failure inside `save_report` (pandas read or
write raising) is an `Option String` parameter of the orchestration
(`none` = the I/O succeeds, `some e` = it raises `e`).
-/

/-- One row of `reports.csv` (the five columns written by `save_report`). -/
structure Row where
  timestamp : String
  issue_type : String
  description : String
  location : String
  status : String
deriving DecidableEq, Repr

/-- The column header written by `initialize_csv` and `df.to_csv`. -/
def csvHeader : List String :=
  ["Timestamp", "Issue Type", "Description", "Location", "Status"]

/-- The parsed contents of `reports.csv`: header row plus data rows in file order. -/
structure CsvFile where
  header : List String
  rows : List Row
deriving DecidableEq, Repr

/-- The three options of the issue-type selectbox in `tenant_interface`. -/
def issueTypes : List String := ["Car Alarm", "Noise Complaint", "Other"]

/-- Embedding of `initialize_csv` (app.py lines 74-83): if the file does not
exist, create it with the header and no rows; otherwise leave it alone. -/
def initialize_csv (s : Option CsvFile) : Option CsvFile :=
  match s with
  | none => some { header := csvHeader, rows := [] }
  | some f => some f

/-- The row built by `save_report` (app.py lines 95-102): the given inputs
plus the formatted current time and status "Pending". -/
def new_report (now issue_type description location : String) : Row :=
  { timestamp := now
    issue_type := issue_type
    description := description
    location := location
    status := "Pending" }

/-- Result of `save_report`: the store file after the write, and the Python
return value of the function (it has no `return` statement). -/
structure SaveResult where
  store : Option CsvFile
  ret : Option Row
deriving DecidableEq, Repr

/-- The read phase of `save_report` (app.py lines 104-109): read the existing
file and concatenate, or start from just the new row if the file is absent. -/
def save_merge (now issue_type description location : String)
    (snapshot : Option CsvFile) : CsvFile :=
  let nr := new_report now issue_type description location
  match snapshot with
  | some f => { header := f.header, rows := f.rows ++ [nr] }
  | none => { header := csvHeader, rows := [nr] }

/-- Embedding of `save_report` (app.py lines 86-111): build the new row,
merge with the current file contents, write the result back.  The function
body ends without a `return`, so the returned value is `none`. -/
def save_report (now issue_type description location : String)
    (s : Option CsvFile) : SaveResult :=
  { store := some (save_merge now issue_type description location s)
    ret := none }

/-- Embedding of the CSV read done by `management_dashboard` (app.py lines
249-250) and of the spec's `read_all()`: all rows, oldest first; an absent
file reads as the empty sequence. -/
def read_all (s : Option CsvFile) : List Row :=
  match s with
  | some f => f.rows
  | none => []

/-- The email configuration of app.py lines 27-31 (environment variables,
with their defaults). -/
structure EmailConfig where
  smtp_server : String
  smtp_port : Nat
  sender_email : String
  sender_password : String
  security_email : String
deriving DecidableEq, Repr

/-- The configuration when no environment variables are set: the `os.getenv`
defaults of app.py lines 27-31. -/
def default_config : EmailConfig :=
  { smtp_server := "smtp.gmail.com"
    smtp_port := 587
    sender_email := ""
    sender_password := ""
    security_email := "" }

/-- Outcome of the SMTP session (connect, starttls, login, send) if one is
opened: either it completes, or some step raises an exception message. -/
inductive Transport where
  | ok : Transport
  | fail : String → Transport
deriving DecidableEq, Repr

/-- Observable outcome of `send_email_alert`: the boolean the function
returns, whether an SMTP connection was attempted, and the `st.error`
message displayed, if any. -/
structure NotifyResult where
  sent : Bool
  attempted : Bool
  error_shown : Option String
deriving DecidableEq, Repr

/-- Embedding of `send_email_alert` (app.py lines 114-166): if any of the
three credentials is empty, return False before any connection; otherwise
attempt the SMTP session, returning True on success, and on any exception
catching it, showing an error, and returning False. -/
def send_email_alert (cfg : EmailConfig) (t : Transport)
    (issue_type description location : String) : NotifyResult :=
  if cfg.sender_email = "" ∨ cfg.sender_password = "" ∨ cfg.security_email = "" then
    { sent := false, attempted := false, error_shown := none }
  else
    match t with
    | Transport.ok =>
        { sent := true, attempted := true, error_shown := none }
    | Transport.fail e =>
        { sent := false, attempted := true
          error_shown := some ("Failed to send email alert: " ++ e) }

/-- The user-visible result of one submission in `tenant_interface`
(app.py lines 217-236): the validation error, an uncaught storage
exception propagating out of `save_report`, or the success message (with
the email outcome that picks the info or warning banner). -/
inductive SubmitResult where
  | validationFailed : SubmitResult
  | persistenceFailed : String → SubmitResult
  | submitted : Bool → SubmitResult
deriving DecidableEq, Repr

/-- Everything observable about one run of the submission branch: the
result shown, the store file afterwards, and whether `send_email_alert`
was called. -/
structure SubmitOutcome where
  result : SubmitResult
  store : Option CsvFile
  notify_called : Bool
deriving DecidableEq, Repr

/-- Embedding of the submission logic of `tenant_interface` (app.py lines
217-236).  `io` is the outcome of the pandas I/O inside `save_report`
(`some e`: it raises `e`, which propagates uncaught, so no email is
attempted and no success is shown).  Validation is the Python test
`not location or not description`, i.e. an empty-string check. -/
def submit_report (io : Option String) (cfg : EmailConfig) (t : Transport)
    (now issue_type description location : String)
    (s : Option CsvFile) : SubmitOutcome :=
  if location = "" ∨ description = "" then
    { result := SubmitResult.validationFailed, store := s, notify_called := false }
  else
    match io with
    | some e =>
        { result := SubmitResult.persistenceFailed e, store := s, notify_called := false }
    | none =>
        let sr := save_report now issue_type description location s
        let n := send_email_alert cfg t issue_type description location
        { result := SubmitResult.submitted n.sent, store := sr.store, notify_called := true }

/-- Arguments of one `save_report` call, for iterated and interleaved runs. -/
structure AppendArgs where
  now : String
  issue_type : String
  description : String
  location : String
deriving DecidableEq, Repr

/-- One atomic step of a `save_report` call when several run at once: the
read phase (the `os.path.exists` test plus `pd.read_csv`, app.py lines
104-106) and the write phase (`pd.concat` plus `df.to_csv`, lines 107-111).
The code takes no lock between the two. -/
inductive Ev where
  | read : Nat → Ev
  | write : Nat → Ev
deriving DecidableEq, Repr

/-- State of the store file together with the snapshot each in-flight
caller has read so far (`none` = that caller has not read yet). -/
structure ConcState where
  file : Option CsvFile
  snap : Nat → Option (Option CsvFile)

/-- Interleaving semantics of unsynchronized `save_report` calls: a read
step records the current file as caller `i`'s snapshot; a write step
writes back `save_merge` of that snapshot, exactly as `save_report` does
(`save_report a b c d s = { store := some (save_merge a b c d s), ret := none }`
is definitional). -/
def concStep (args : Nat → AppendArgs) (s : ConcState) (e : Ev) : ConcState :=
  match e with
  | Ev.read i =>
      { file := s.file, snap := fun j => if j = i then some s.file else s.snap j }
  | Ev.write i =>
      match s.snap i with
      | some snapshot =>
          let a := args i
          { file := some (save_merge a.now a.issue_type a.description a.location snapshot)
            snap := s.snap }
      | none => s

/-- Run a schedule of read/write steps from a given store file, with no
caller having read yet. -/
def runSchedule (args : Nat → AppendArgs) (sched : List Ev)
    (start : Option CsvFile) : ConcState :=
  sched.foldl (concStep args) { file := start, snap := fun _ => none }

/-- Serialized execution of a list of `save_report` calls, one after the
other. -/
def run_saves (calls : List AppendArgs) (s : Option CsvFile) : Option CsvFile :=
  calls.foldl
    (fun st a => (save_report a.now a.issue_type a.description a.location st).store) s

/-- Two concurrent callers with distinct rows, for the lost-update schedule. -/
def argsTwo : Nat → AppendArgs :=
  fun i =>
    if i = 0 then
      { now := "t0", issue_type := "Other", description := "d0", location := "l0" }
    else
      { now := "t1", issue_type := "Other", description := "d1", location := "l1" }

/-- Helper: `save_report` leaves prior rows in place and appends the new
row at the end, whether or not the file existed. -/
theorem read_all_save_report (now issue_type description location : String)
    (s : Option CsvFile) :
    read_all (save_report now issue_type description location s).store
      = read_all s ++ [new_report now issue_type description location] := by
  cases s <;> rfl

/-- Helper: the store after a submission is either untouched (validation or
I/O failure) or the result of the `save_report` write. -/
theorem submit_report_store_cases (io : Option String) (cfg : EmailConfig)
    (t : Transport) (now issue_type description location : String)
    (s : Option CsvFile) :
    (submit_report io cfg t now issue_type description location s).store = s ∨
    (submit_report io cfg t now issue_type description location s).store
      = (save_report now issue_type description location s).store := by
  unfold submit_report
  by_cases hv : location = "" ∨ description = ""
  · rw [if_pos hv]; exact Or.inl rfl
  · rw [if_neg hv]
    cases io with
    | none => exact Or.inr rfl
    | some e => exact Or.inl rfl

/-- Helper: unfolding one serialized call. -/
theorem run_saves_cons (a : AppendArgs) (rest : List AppendArgs)
    (s : Option CsvFile) :
    run_saves (a :: rest) s
      = run_saves rest
          (save_report a.now a.issue_type a.description a.location s).store := rfl

/-- Helper: serialized `save_report` calls append exactly their rows, in
order. -/
theorem run_saves_rows (calls : List AppendArgs) (s : Option CsvFile) :
    read_all (run_saves calls s)
      = read_all s
        ++ calls.map (fun a => new_report a.now a.issue_type a.description a.location) := by
  induction calls generalizing s with
  | nil => simp [run_saves]
  | cons a rest ih =>
      rw [run_saves_cons, ih, read_all_save_report]
      simp

/-- C1: for every valid input (issue type among the selectbox options,
description and location non-empty), a submission with working storage
persists exactly one new record: the count grows by one, and reading all
records yields the new Report as the last element, with status "Pending"
and the input issue type, description and location. -/
theorem submit_valid_appends_pending (cfg : EmailConfig) (t : Transport)
    (now issue_type description location : String) (s : Option CsvFile)
    (hit : issue_type ∈ issueTypes)
    (hd : description ≠ "") (hl : location ≠ "") :
    (read_all (submit_report none cfg t now issue_type description location s).store).length
      = (read_all s).length + 1 ∧
    read_all (submit_report none cfg t now issue_type description location s).store
      = read_all s ++ [new_report now issue_type description location] ∧
    (new_report now issue_type description location).status = "Pending" ∧
    (new_report now issue_type description location).issue_type = issue_type ∧
    (new_report now issue_type description location).description = description ∧
    (new_report now issue_type description location).location = location := by
  have hv : ¬ (location = "" ∨ description = "") := by
    rintro (h | h)
    · exact hl h
    · exact hd h
  have hstore : (submit_report none cfg t now issue_type description location s).store
      = (save_report now issue_type description location s).store := by
    unfold submit_report
    rw [if_neg hv]
  rw [hstore, read_all_save_report]
  refine ⟨by simp, rfl, rfl, rfl, rfl, rfl⟩

/-- Witness for C1 at a concrete valid input over an empty store. -/
theorem submit_valid_appends_pending_witness :
    ("Other" ∈ issueTypes ∧ ("loud music" : String) ≠ "" ∧ ("Lot B" : String) ≠ "") ∧
    read_all (submit_report none default_config Transport.ok "2025-01-01 00:00:00"
        "Other" "loud music" "Lot B" (some { header := csvHeader, rows := [] })).store
      = read_all (some { header := csvHeader, rows := ([] : List Row) })
          ++ [new_report "2025-01-01 00:00:00" "Other" "loud music" "Lot B"] :=
  ⟨⟨by decide, by decide, by decide⟩,
    (submit_valid_appends_pending default_config Transport.ok "2025-01-01 00:00:00"
      "Other" "loud music" "Lot B" (some { header := csvHeader, rows := [] })
      (by decide) (by decide) (by decide)).2.1⟩

/-- C2 counterexample: a whitespace-only description (a single space)
passes the code's `not description` check, so the submission is accepted
and a record is written — the claim's required `ValidationFailed` with an
untouched store does not happen. -/
theorem submit_whitespace_accepted_cex :
    (submit_report none default_config Transport.ok "2025-01-01 00:00:00"
        "Other" " " "Lot B" (some { header := csvHeader, rows := [] })).result
      = SubmitResult.submitted false ∧
    read_all (submit_report none default_config Transport.ok "2025-01-01 00:00:00"
        "Other" " " "Lot B" (some { header := csvHeader, rows := [] })).store
      = [new_report "2025-01-01 00:00:00" "Other" " " "Lot B"] :=
  ⟨rfl, rfl⟩

/-- C2 amended: only when description or location is the empty string does
the submission return the validation error; then the store is untouched
and the notifier is not invoked. -/
theorem submit_empty_rejected (io : Option String) (cfg : EmailConfig)
    (t : Transport) (now issue_type description location : String)
    (s : Option CsvFile)
    (h : description = "" ∨ location = "") :
    (submit_report io cfg t now issue_type description location s).result
      = SubmitResult.validationFailed ∧
    (submit_report io cfg t now issue_type description location s).store = s ∧
    (submit_report io cfg t now issue_type description location s).notify_called = false := by
  unfold submit_report
  rw [if_pos h.symm]
  exact ⟨rfl, rfl, rfl⟩

/-- Witness for the amended C2 at an empty description. -/
theorem submit_empty_rejected_witness :
    (("" : String) = "" ∨ ("Lot B" : String) = "") ∧
    (submit_report none default_config Transport.ok "2025-01-01 00:00:00"
        "Other" "" "Lot B" (some { header := csvHeader, rows := [] })).result
      = SubmitResult.validationFailed :=
  ⟨Or.inl rfl,
    (submit_empty_rejected none default_config Transport.ok "2025-01-01 00:00:00"
      "Other" "" "Lot B" (some { header := csvHeader, rows := [] }) (Or.inl rfl)).1⟩

/-- C4 counterexample: `save_report` has no `return` statement, so its
caller receives `None`, not the materialized Report the claim promises. -/
theorem save_report_returns_no_report_cex :
    (save_report "2025-01-01 00:00:00" "Other" "car alarm going off" "Lot B"
        (some { header := csvHeader, rows := [] })).ret = none :=
  rfl

/-- C4 amended: `save_report` stamps the formatted current time and status
"Pending", writes the new row as the last entry with all prior rows
preserved in order, but returns no value (`None`) to its caller. -/
theorem save_report_stamps_and_appends (now issue_type description location : String)
    (s : Option CsvFile) :
    read_all (save_report now issue_type description location s).store
      = read_all s ++ [new_report now issue_type description location] ∧
    (new_report now issue_type description location).timestamp = now ∧
    (new_report now issue_type description location).status = "Pending" ∧
    (save_report now issue_type description location s).ret = none :=
  ⟨read_all_save_report now issue_type description location s, rfl, rfl, rfl⟩

/-- C3 counterexample: the submission code never checks `issue_type`, so a
value outside the selectbox enumeration is persisted rather than rejected:
submitting "Vandalism" succeeds and writes a record whose issue type is
not in the enumeration. -/
theorem submit_unknown_issue_type_cex :
    "Vandalism" ∉ issueTypes ∧
    (submit_report none default_config Transport.ok "2025-01-01 00:00:00"
        "Vandalism" "broken window" "Lobby" (some { header := csvHeader, rows := [] })).result
      = SubmitResult.submitted false ∧
    read_all (submit_report none default_config Transport.ok "2025-01-01 00:00:00"
        "Vandalism" "broken window" "Lobby" (some { header := csvHeader, rows := [] })).store
      = [new_report "2025-01-01 00:00:00" "Vandalism" "broken window" "Lobby"] :=
  ⟨by decide, rfl, rfl⟩

/-- C3 amended: `submit_report` itself performs no issue-type validation
(the enumeration is enforced only by the UI selectbox); when the input
issue type is one of the selectbox options, every record persisted by the
submission still has its issue type in the enumeration, provided all
existing records do. -/
theorem submit_enum_invariant (io : Option String) (cfg : EmailConfig)
    (t : Transport) (now issue_type description location : String)
    (s : Option CsvFile)
    (hit : issue_type ∈ issueTypes)
    (hs : ∀ r ∈ read_all s, r.issue_type ∈ issueTypes) :
    ∀ r ∈ read_all (submit_report io cfg t now issue_type description location s).store,
      r.issue_type ∈ issueTypes := by
  intro r hr
  rcases submit_report_store_cases io cfg t now issue_type description location s with h | h
  · rw [h] at hr
    exact hs r hr
  · rw [h, read_all_save_report] at hr
    rcases List.mem_append.1 hr with h1 | h1
    · exact hs r h1
    · rw [List.mem_singleton.1 h1]
      exact hit

/-- Witness for the amended C3: with "Other" submitted over an empty
store, the newly persisted record's issue type is in the enumeration. -/
theorem submit_enum_invariant_witness :
    "Other" ∈ issueTypes ∧
    (new_report "2025-01-01 00:00:00" "Other" "noise" "Unit 4").issue_type ∈ issueTypes :=
  ⟨by decide,
    submit_enum_invariant none default_config Transport.ok "2025-01-01 00:00:00"
      "Other" "noise" "Unit 4" (some { header := csvHeader, rows := [] })
      (by decide) (by decide)
      (new_report "2025-01-01 00:00:00" "Other" "noise" "Unit 4") (by decide)⟩

/-- C5: `send_email_alert` is a total function into a boolean outcome — it
returns True exactly when the configuration is complete and the SMTP
session succeeds, and every configuration or transport failure is
converted to a False return (the exception is caught, never re-raised). -/
theorem send_email_alert_never_raises (cfg : EmailConfig) (t : Transport)
    (issue_type description location : String) :
    ((send_email_alert cfg t issue_type description location).sent = true ∨
      (send_email_alert cfg t issue_type description location).sent = false) ∧
    ((send_email_alert cfg t issue_type description location).sent = true ↔
      (cfg.sender_email ≠ "" ∧ cfg.sender_password ≠ "" ∧ cfg.security_email ≠ ""
        ∧ t = Transport.ok)) := by
  constructor
  · cases h : (send_email_alert cfg t issue_type description location).sent
    · exact Or.inr rfl
    · exact Or.inl rfl
  · unfold send_email_alert
    by_cases h : cfg.sender_email = "" ∨ cfg.sender_password = "" ∨ cfg.security_email = ""
    · rw [if_pos h]
      simp only [Bool.false_eq_true, false_iff]
      rintro ⟨h1, h2, h3, _⟩
      rcases h with h | h | h
      · exact h1 h
      · exact h2 h
      · exact h3 h
    · rw [if_neg h]
      push_neg at h
      cases t with
      | ok => simp [h]
      | fail e => simp [h]

/-- C6: when any of the sender address, sender password or security
address is empty, `send_email_alert` returns False with no SMTP
connection attempted and no error shown — an outcome distinct from that
of every run in which a connection was attempted (in particular from
every transport failure). -/
theorem send_email_alert_missing_config (cfg : EmailConfig) (t : Transport)
    (issue_type description location : String)
    (h : cfg.sender_email = "" ∨ cfg.sender_password = "" ∨ cfg.security_email = "") :
    send_email_alert cfg t issue_type description location
      = { sent := false, attempted := false, error_shown := none } ∧
    ∀ cfg2 t2 i2 d2 l2,
      (send_email_alert cfg2 t2 i2 d2 l2).attempted = true →
      send_email_alert cfg t issue_type description location
        ≠ send_email_alert cfg2 t2 i2 d2 l2 := by
  have h1 : send_email_alert cfg t issue_type description location
      = { sent := false, attempted := false, error_shown := none } := by
    unfold send_email_alert
    rw [if_pos h]
  refine ⟨h1, ?_⟩
  intro cfg2 t2 i2 d2 l2 ha heq
  rw [← heq, h1] at ha
  simp at ha

/-- Witness for C6 at the default (unset) configuration. -/
theorem send_email_alert_missing_config_witness :
    (default_config.sender_email = "" ∨ default_config.sender_password = ""
      ∨ default_config.security_email = "") ∧
    send_email_alert default_config Transport.ok "Other" "noise" "Unit 4"
      = { sent := false, attempted := false, error_shown := none } :=
  ⟨by decide,
    (send_email_alert_missing_config default_config Transport.ok
      "Other" "noise" "Unit 4" (by decide)).1⟩

/-- C7: with non-empty inputs, a storage failure makes the whole
submission fail with the propagated error and the notifier is never
called; a successful write always yields the success result, carrying the
notifier's outcome without ever turning the success into a failure. -/
theorem submit_persist_before_notify (io : Option String) (cfg : EmailConfig)
    (t : Transport) (now issue_type description location : String)
    (s : Option CsvFile)
    (hd : description ≠ "") (hl : location ≠ "") :
    (∀ e, io = some e →
      (submit_report io cfg t now issue_type description location s).result
        = SubmitResult.persistenceFailed e ∧
      (submit_report io cfg t now issue_type description location s).notify_called = false) ∧
    (io = none →
      (submit_report io cfg t now issue_type description location s).result
        = SubmitResult.submitted (send_email_alert cfg t issue_type description location).sent ∧
      (submit_report io cfg t now issue_type description location s).notify_called = true) := by
  have hv : ¬ (location = "" ∨ description = "") := by
    rintro (h | h)
    · exact hl h
    · exact hd h
  unfold submit_report
  rw [if_neg hv]
  constructor
  · rintro e rfl
    exact ⟨rfl, rfl⟩
  · rintro rfl
    exact ⟨rfl, rfl⟩

/-- Witness for C7: a concrete storage failure fails the submission with
no notification. -/
theorem submit_persist_before_notify_witness :
    (("noise" : String) ≠ "" ∧ ("Unit 4" : String) ≠ "") ∧
    (submit_report (some "disk full") default_config Transport.ok "2025-01-01 00:00:00"
        "Other" "noise" "Unit 4" (some { header := csvHeader, rows := [] })).result
      = SubmitResult.persistenceFailed "disk full" ∧
    (submit_report (some "disk full") default_config Transport.ok "2025-01-01 00:00:00"
        "Other" "noise" "Unit 4"
        (some { header := csvHeader, rows := [] })).notify_called = false :=
  ⟨⟨by decide, by decide⟩,
    (submit_persist_before_notify (some "disk full") default_config Transport.ok
      "2025-01-01 00:00:00" "Other" "noise" "Unit 4"
      (some { header := csvHeader, rows := [] })
      (by decide) (by decide)).1 "disk full" rfl⟩

/-- C8: `initialize_csv` is idempotent — applying it twice equals applying
it once — and on an existing store (populated or not) it is the identity,
so no existing record is truncated or altered. -/
theorem initialize_csv_idempotent (s : Option CsvFile) (f : CsvFile) :
    initialize_csv (initialize_csv s) = initialize_csv s ∧
    initialize_csv (some f) = some f ∧
    read_all (initialize_csv (some f)) = f.rows := by
  refine ⟨?_, rfl, rfl⟩
  cases s <;> rfl

/-- C9 counterexample: two simultaneous `save_report` calls with nothing
ordering their unsynchronized read and write phases can both read the same
history; the schedule read-read-write-write over an empty store ends with
one record instead of two — caller 0's record is lost, so the append is
not an atomic read-modify-write cycle. -/
theorem concurrent_append_lost_update_cex :
    read_all (runSchedule argsTwo
        [Ev.read 0, Ev.read 1, Ev.write 0, Ev.write 1]
        (some { header := csvHeader, rows := [] })).file
      = [new_report "t1" "Other" "d1" "l1"] ∧
    (read_all (runSchedule argsTwo
        [Ev.read 0, Ev.read 1, Ev.write 0, Ev.write 1]
        (some { header := csvHeader, rows := [] })).file).length = 1 :=
  ⟨rfl, rfl⟩

/-- C9 amended: the code takes no lock, so truly simultaneous appends can
lose records; when the `save_report` calls execute one after the other
(serialized), n submissions add exactly their n records, in order, with
none lost and none duplicated. -/
theorem sequential_appends_exact (calls : List AppendArgs) (s : Option CsvFile) :
    read_all (run_saves calls s)
      = read_all s
        ++ calls.map (fun a => new_report a.now a.issue_type a.description a.location) ∧
    (read_all (run_saves calls s)).length = (read_all s).length + calls.length := by
  refine ⟨run_saves_rows calls s, ?_⟩
  rw [run_saves_rows calls s]
  simp

/-- C10: `save_report` needs no prior initialization — called when the
store file does not exist, it succeeds and creates the file with the
five-field header and exactly the one new record. -/
theorem save_report_creates_store (now issue_type description location : String) :
    (save_report now issue_type description location none).store
      = some { header := csvHeader
               rows := [new_report now issue_type description location] } ∧
    csvHeader = ["Timestamp", "Issue Type", "Description", "Location", "Status"] :=
  ⟨rfl, rfl⟩
